import Mathlib

/-!
# Verification of the risk-route-vision risk-scoring core

A shallow embedding, in Lean 4, of the algorithmic core of the
`risk-route-vision` backend (FastAPI + ML risk scorer), together with
theorems settling the frozen claims about its specification.

Embedding conventions:
* Python floats are modelled as real numbers (`ℝ`); purely comparative /
  filtering logic (the geofence) is modelled over `ℚ` so that it stays
  decidable and executable.
* Python's `int(x)` truncation toward zero is `pyInt`; `round(x, n)` is
  modelled as round-half-up at `n` decimals (`pyRound3`/`pyRound4`) — the
  proved properties do not depend on the tie-breaking direction.
* Python dict `.get(key, default)` over string-keyed literal dicts is
  `pyGet`; absent keys of a features dict are `Option` fields read with
  `Option.getD`, mirroring `.get` with a default.
* Module-level mutable model handles (`_XGB_MODEL` etc.) are modelled as an
  explicit state (`ModelSlot`) threaded through step functions; the file
  system / deserialization outcome of one load attempt is a `LoadEnv`.
* Exceptional control flow (`HTTPException`) is an `Except` value carrying
  the HTTP status code and message.

Sources embedded (paths relative to the repository root):
* `back-end/app/services/geo_utils.py`  — geofence
* `back-end/app/services/geometry.py`   — per-point curvature
* `back-end/app/services/risk_segments.py` — seeded grid generator
* `back-end/app/ml/model.py`            — model gateway, aggregation,
  confidence
* `back-end/app/routers/risk.py`        — `/score` validation pipeline
-/

namespace RiskRouteVision

/-! ## Geofence (`app/services/geo_utils.py`)

`GINIGATHENA_BOUNDS = {min_lat: 7.0, max_lat: 7.5, min_lon: 80.4, max_lon: 80.9}`.
Coordinates here are `ℚ × ℚ` (latitude, longitude) so everything is
decidable/executable. -/

/-- `is_within_ginigathena(lat, lon)`: chained comparison
`min_lat <= lat <= max_lat and min_lon <= lon <= max_lon`. -/
def is_within_ginigathena (lat lon : ℚ) : Bool :=
  (7 ≤ lat && lat ≤ 7.5) && (80.4 ≤ lon && lon ≤ 80.9)

/-- `filter_coordinates_in_ginigathena(coordinates)`: the list comprehension
`[coord for coord in coordinates if is_within_ginigathena(coord[0], coord[1])]`. -/
def filter_coordinates_in_ginigathena (coordinates : List (ℚ × ℚ)) : List (ℚ × ℚ) :=
  coordinates.filter (fun coord => is_within_ginigathena coord.1 coord.2)

/-! ## `/score` endpoint input validation (`app/routers/risk.py`, `score`)

The endpoint first rejects routes with fewer than 2 coordinates, then
filters to the service area and rejects when fewer than 2 points remain.
Both rejections are `HTTPException(400, ...)` — a client-fault status —
re-raised as-is by the `except HTTPException: raise` arm (the generic
`except` arm produces 500, an internal error). -/

/-- The validation prefix of the `/score` handler: either a client-fault
rejection `(400, message)` or the geofence-filtered coordinate list that the
scoring core then receives. -/
def score_validate (coordinates : List (ℚ × ℚ)) : Except (ℕ × String) (List (ℚ × ℚ)) :=
  if coordinates.length < 2 then
    .error (400, "Need at least 2 coordinates")
  else
    let ginigathena_coords := filter_coordinates_in_ginigathena coordinates
    if ginigathena_coords.length < 2 then
      .error (400, "Route is outside Ginigathena service area. Risk analysis is only available for routes within Ginigathena.")
    else
      .ok ginigathena_coords

/-! ## Model handle lifecycle (`app/ml/model.py`)

The three model roles are cached in module globals `_XGB_MODEL`,
`_CAUSE_MODEL`, `_RATE_MODEL`; each is `None` (never attempted), a loaded
model object, or the sentinel string `"dummy"` (fallback). A loader call
reads the global, and in the non-cached cases resolves a path (explicit
argument, environment variable, conventional default) and attempts
`joblib.load`. `LoadEnv` abstracts the outcome that the file system and
deserializer would produce for that attempt. -/

/-- State of one model-handle global: `None` / loaded object / `"dummy"`. -/
inductive ModelSlot
  | unloaded
  | loaded
  | fallback
  deriving DecidableEq, Repr

/-- Outcome the environment offers to one load attempt: the first existing
file deserializes, it raises, or no file exists at any search path. -/
inductive LoadEnv
  | fileLoads
  | fileCorrupt
  | fileMissing
  deriving DecidableEq, Repr

/-- `load_xgboost_model`: the guard `if _XGB_MODEL is not None and
_XGB_MODEL != "dummy": return _XGB_MODEL` short-circuits only in the
loaded state; otherwise the load is (re-)attempted and the global is set to
the model on success and to `"dummy"` on a missing file or a
deserialization error. Returns the new state of `_XGB_MODEL`. -/
def load_xgboost_model_step (env : LoadEnv) (s : ModelSlot) : ModelSlot :=
  match s with
  | .loaded => .loaded
  | _ =>
    match env with
    | .fileLoads => .loaded
    | .fileCorrupt => .fallback
    | .fileMissing => .fallback

/-- `load_cause_classifier`: same guard shape over `_CAUSE_MODEL`. -/
def load_cause_classifier_step (env : LoadEnv) (s : ModelSlot) : ModelSlot :=
  match s with
  | .loaded => .loaded
  | _ =>
    match env with
    | .fileLoads => .loaded
    | .fileCorrupt => .fallback
    | .fileMissing => .fallback

/-- `load_segment_rate_model`: same guard shape over `_RATE_MODEL`. -/
def load_segment_rate_model_step (env : LoadEnv) (s : ModelSlot) : ModelSlot :=
  match s with
  | .loaded => .loaded
  | _ =>
    match env with
    | .fileLoads => .loaded
    | .fileCorrupt => .fallback
    | .fileMissing => .fallback

/-! ## Python primitives over `ℝ` -/

/-- `dict.get(key, default)` over a string-keyed Python dict literal,
modelled as an association list in the dict's insertion order. -/
def pyGet {α : Type} (d : List (String × α)) (key : String) (default : α) : α :=
  ((d.find? (fun kv => kv.1 == key)).map Prod.snd).getD default

noncomputable section

/-- Python `int(x)` on a float: truncation toward zero. -/
def pyInt (x : ℝ) : ℤ :=
  if 0 ≤ x then ⌊x⌋ else -⌊-x⌋

/-- Python `round(x, 3)` (modelled as round-half-up at 3 decimals; Python
uses round-half-even on binary floats — none of the proved properties
depend on the tie direction). -/
def pyRound3 (x : ℝ) : ℝ :=
  (⌊x * 1000 + 1 / 2⌋ : ℝ) / 1000

/-- Python `round(x, 4)` (same modelling note as `pyRound3`). -/
def pyRound4 (x : ℝ) : ℝ :=
  (⌊x * 10000 + 1 / 2⌋ : ℝ) / 10000

/-! ## Risk aggregation (`app/ml/model.py`) -/

/-- `sigmoid(x) = 1.0 / (1.0 + np.exp(-x))`. -/
def sigmoid (x : ℝ) : ℝ :=
  1 / (1 + Real.exp (-x))

/-- The `vehicle_multipliers` dict of `calculate_integrated_risk_score`
(the identical table also appears in
`risk_segments.calculate_risk_for_location`). -/
def vehicle_multipliers : List (String × ℝ) :=
  [("MOTORCYCLE", 1.2), ("THREE_WHEELER", 1.1), ("CAR", 1.0),
   ("BUS", 0.85), ("LORRY", 0.90), ("VAN", 1.0)]

/-- `calculate_integrated_risk_score(cause_probability, segment_rate,
vehicle_type, is_wet)`: the integrated 0–100 risk formula
(`np.clip(risk_score, 0.0, 100.0)` is `min 100 (max 0 _)`). -/
def calculate_integrated_risk_score
    (cause_probability segment_rate : ℝ) (vehicle_type : String) (is_wet : Bool) : ℝ :=
  let cause_component := sigmoid (5 * (cause_probability - 0.5))
  let max_rate : ℝ := 0.05
  let rate_component := min 1 (segment_rate / max_rate)
  let vehicle_multiplier := pyGet vehicle_multipliers vehicle_type 1.0
  let weather_multiplier : ℝ := if is_wet then 1.25 else 1.0
  let risk_score :=
    100 * (0.6 * cause_component + 0.4 * rate_component)
      * vehicle_multiplier * weather_multiplier
  min 100 (max 0 risk_score)

/-- The vehicle multiplier exactly as the specification words it: a lookup
table `{MOTORCYCLE:1.2, THREE_WHEELER:1.1, CAR:1.0, BUS:0.85, LORRY:0.90,
VAN:1.0}` with default 1.0. (Spec-side definition, for comparison with the
source-side `vehicle_multipliers`.) -/
def specVehicleMultiplier (v : String) : ℝ :=
  if v = "MOTORCYCLE" then 1.2
  else if v = "THREE_WHEELER" then 1.1
  else if v = "CAR" then 1.0
  else if v = "BUS" then 0.85
  else if v = "LORRY" then 0.90
  else if v = "VAN" then 1.0
  else 1.0

/-- The integrated score exactly as the specification words it:
`clip(100·(0.6·sigmoid(5·(p−0.5)) + 0.4·min(1, r/0.05))·vehicleMultiplier·weatherMultiplier, 0, 100)`
with `weatherMultiplier = 1.25` if wet else 1. (Spec-side definition.) -/
def specIntegratedScore (p r : ℝ) (v : String) (w : Bool) : ℝ :=
  min 100 (max 0
    (100 * (0.6 * sigmoid (5 * (p - 0.5)) + 0.4 * min 1 (r / 0.05))
      * specVehicleMultiplier v * (if w then 1.25 else 1)))

/-! ## Geometry utility (`app/services/geometry.py`) -/

/-- One iteration of the `per_point_curvature` loop: the turning angle at
`b` between the vectors `v1 = a - b` and `v2 = c - b`,
`abs(np.arccos(max(-1, min(1, num/den))))` with
`den = |v1|·|v2| + 1e-9`. -/
def turn_angle (a b c : ℝ × ℝ) : ℝ :=
  let v1 : ℝ × ℝ := (a.1 - b.1, a.2 - b.2)
  let v2 : ℝ × ℝ := (c.1 - b.1, c.2 - b.2)
  let num := v1.1 * v2.1 + v1.2 * v2.2
  let den := Real.sqrt (v1.1 ^ 2 + v1.2 ^ 2) * Real.sqrt (v2.1 ^ 2 + v2.2 ^ 2) + 1e-9
  |Real.arccos (max (-1) (min 1 (num / den)))|

/-- `per_point_curvature(coords)`: `[0.0] * len` for routes of fewer than 3
points, otherwise `[0.0]` ++ the turning angle at each interior point
(`a, b, c = coords[i-1], coords[i], coords[i+1]` for `i in
range(1, len(coords)-1)`) ++ `[0.0]`. -/
def per_point_curvature (coords : List (ℝ × ℝ)) : List ℝ :=
  if coords.length < 3 then List.replicate coords.length 0
  else
    0 :: ((List.range (coords.length - 2)).map (fun k =>
      turn_angle (coords.getD k (0, 0)) (coords.getD (k + 1) (0, 0))
        (coords.getD (k + 2) (0, 0)))) ++ [0]

/-! ## Model gateway: fallback prediction and threshold normalization
(`app/ml/model.py`, `predict_segment_scores`) -/

/-- A Python value stored under the `"curvature"` key of the features dict:
either a float or a per-point list. -/
inductive CurvatureField
  | scalar (x : ℝ)
  | perPoint (xs : List ℝ)

/-- The fields of the `features` dict that the dummy (fallback) branch of
`predict_segment_scores` reads via `.get`; `none` models an absent key. -/
structure FallbackFeatures where
  curvature : Option CurvatureField
  surface_wetness_prob : Option ℝ
  vehicle_factor : Option ℝ
  hour : Option ℤ

/-- `time_factor = 1.2 if hour_val is not None and hour_val in
[7,8,9,17,18,19] else 1.0`. -/
def timeFactor (hour_val : Option ℤ) : ℝ :=
  match hour_val with
  | some h => if h ∈ ([7, 8, 9, 17, 18, 19] : List ℤ) then 1.2 else 1.0
  | none => 1.0

/-- The `model == "dummy"` branch of `predict_segment_scores`: per point,
`min(1.0, max(0.0, (0.15*vf + 0.7*base + 0.15*wet) * time_factor))`, with
`base = features.get("curvature", 0.1)` broadcast over `coords` when it is
a scalar; returns the triple (scores, raw SPI predictions, incident rates)
with the latter two all zero. -/
def predict_segment_scores_fallback (features : FallbackFeatures) (nCoords : ℕ) :
    List ℝ × List ℝ × List ℝ :=
  let base := features.curvature.getD (.scalar 0.1)
  let time_factor := timeFactor features.hour
  let wet := features.surface_wetness_prob.getD 0.0
  let vf := features.vehicle_factor.getD 1.0
  match base with
  | .perPoint xs =>
      (xs.map (fun b => min 1 (max 0 ((0.15 * vf + 0.7 * b + 0.15 * wet) * time_factor))),
       List.replicate xs.length 0, List.replicate xs.length 0)
  | .scalar b =>
      (List.replicate nCoords (min 1 (max 0 ((0.15 * vf + 0.7 * b + 0.15 * wet) * time_factor))),
       List.replicate nCoords 0, List.replicate nCoords 0)

/-- The fallback risk formula exactly as the claim words it:
`clip(0.15·vehicleFactor + 0.7·curvature + 0.15·wetnessProb, 0, 1)` times a
rush-hour multiplier of 1.2 when the supplied hour is in {7,8,9,17,18,19}
and 1.0 otherwise (clip applied BEFORE the multiplier). (Spec-side
definition, for comparison with the source-side fallback branch.) -/
def specFallbackRisk (vf b wet : ℝ) (hour : Option ℤ) : ℝ :=
  min 1 (max 0 (0.15 * vf + 0.7 * b + 0.15 * wet)) * timeFactor hour

/-- The amended fallback risk formula: the rush-hour multiplier is applied
before clipping, `clip((0.15·vf + 0.7·curvature + 0.15·wetnessProb)·tf, 0, 1)`. -/
def specFallbackRiskAmended (vf b wet : ℝ) (hour : Option ℤ) : ℝ :=
  min 1 (max 0 ((0.15 * vf + 0.7 * b + 0.15 * wet) * timeFactor hour))

/-- The `else` (model LOADED) branch of `predict_segment_scores`,
pre-curvature-amplification value for one raw prediction `pred` against the
vehicle threshold:
`0.5 + 0.5 * ((pred - threshold) / (max_spi - threshold))` with
`max_spi = 1.0` when `pred >= threshold`, else `0.5 * (pred / threshold)`. -/
def base_risk (pred threshold : ℝ) : ℝ :=
  if threshold ≤ pred then
    let max_spi : ℝ := 1.0
    0.5 + 0.5 * ((pred - threshold) / (max_spi - threshold))
  else
    0.5 * (pred / threshold)

/-- The full per-point normalized score of the LOADED branch: `base_risk`
amplified by `curvature_multiplier = 1.0 + curvature * 0.15` and clipped to
[0, 1] (`np.clip(adjusted_risk, 0.0, 1.0)`). -/
def normalized_score (pred threshold curvature_factor : ℝ) : ℝ :=
  let curvature_multiplier := 1.0 + curvature_factor * 0.15
  min 1 (max 0 (base_risk pred threshold * curvature_multiplier))

/-! ## Vehicle thresholds (`app/ml/model.py`, `load_vehicle_thresholds`)

Modelled in its no-side-file configuration: the hardcoded
`default_thresholds` dict is cached and used (the CSV, when present, only
replaces the values; every claim here is threshold-value-independent or
quantifies over the threshold). -/

/-- The `default_thresholds` dict (note: no `"VAN"` entry — VAN resolves
through `"__GLOBAL__"`). -/
def default_thresholds : List (String × ℝ) :=
  [("__GLOBAL__", 0.5), ("MOTORCYCLE", 0.45), ("THREE_WHEELER", 0.48),
   ("CAR", 0.50), ("BUS", 0.55), ("LORRY", 0.52)]

/-- `thresholds.get(vehicle_type, thresholds.get("__GLOBAL__", 0.5))`. -/
def threshold_for (vehicle_type : String) : ℝ :=
  pyGet default_thresholds vehicle_type (pyGet default_thresholds "__GLOBAL__" 0.5)

/-! ## Prediction confidence (`app/ml/model.py`,
`calculate_prediction_confidence`) -/

/-- The value stored under the `"certainty"` key: a float (0.9/0.5/0.2) on
the non-empty path, the string `"low"` on the empty path. -/
inductive CertaintyValue
  | num (x : ℝ)
  | str (s : String)

/-- The result dict of `calculate_prediction_confidence`. The four `Option`
fields model keys that are absent from the empty-input result. -/
structure ConfidenceResult where
  confidence : ℝ
  certainty : CertaintyValue
  distance_from_threshold : Option ℝ
  consistency : Option ℝ
  avg_prediction : Option ℝ
  threshold : Option ℝ

/-- `np.mean` of a list. -/
def npMean (xs : List ℝ) : ℝ :=
  xs.sum / xs.length

/-- `np.var` of a list (population variance). -/
def npVar (xs : List ℝ) : ℝ :=
  ((xs.map (fun x => (x - npMean xs) ^ 2)).sum) / xs.length

/-- `calculate_prediction_confidence(predictions, vehicle_type)`. The
`predictions is None or len(predictions) == 0` guard returns
`{"confidence": 0.0, "certainty": "low"}`; otherwise the six-key dict is
built (values rounded to 3 decimals, certainty set to 0.9/0.5/0.2). -/
def calculate_prediction_confidence
    (predictions : Option (List ℝ)) (vehicle_type : String) : ConfidenceResult :=
  match predictions with
  | none => ⟨0.0, .str "low", none, none, none, none⟩
  | some ps =>
    if ps.length = 0 then ⟨0.0, .str "low", none, none, none, none⟩
    else
      let threshold := threshold_for vehicle_type
      let avg_pred := npMean ps
      let distance_from_threshold := |avg_pred - threshold|
      let confidence := min 1 (distance_from_threshold * 2)
      let consistency :=
        if 1 < ps.length then max 0 (1 - npVar ps * 10) else 1.0
      let combined_confidence := confidence * 0.6 + consistency * 0.4
      let certainty : ℝ :=
        if 0.7 < combined_confidence then 0.9
        else if 0.4 < combined_confidence then 0.5
        else 0.2
      ⟨pyRound3 combined_confidence, .num certainty,
       some (pyRound3 distance_from_threshold), some (pyRound3 consistency),
       some (pyRound3 avg_pred), some (pyRound3 threshold)⟩

/-! ## Integrated prediction, fallback mode (`app/ml/model.py`,
`predict_with_cause`)

Embedded in the configuration where all three model handles are in
FALLBACK state (no model files present): `predict_segment_scores` takes its
dummy branch, `predict_cause_scores` returns the fixed fallback string and
`predict_incident_rate` returns zeros. -/

/-- The weather dict handed to `predict_with_cause` (router or grid
generator): fixed numeric keys plus the `"curvature"` value and the
optional `"is_rain"` / `"is_wet"` keys. -/
structure CellWeather where
  temperature : ℝ
  humidity : ℝ
  precipitation : ℝ
  wind_speed : ℝ
  curvature : CurvatureField
  is_rain : Option Bool
  is_wet : Option ℤ

/-- `predict_with_cause(coords, weather, vehicle_type, timestamp, hour)` in
fallback mode. `features = {**weather, "vehicle_type": ..., "timestamp":
..., "hour": hour}` has no `"surface_wetness_prob"` or `"vehicle_factor"`
key; the dummy branch reads those through `.get` defaults. The returned
risk scores are the integrated scores divided by 100, the causes the
fallback string, the rates zeros. -/
def predict_with_cause_fallback (coords : List (ℝ × ℝ)) (weather : CellWeather)
    (vehicle_type : String) (hour : Option ℤ) : List ℝ × List String × List ℝ :=
  let features : FallbackFeatures :=
    { curvature := some weather.curvature, surface_wetness_prob := none,
      vehicle_factor := none, hour := hour }
  let res := predict_segment_scores_fallback features coords.length
  let raw_spi := res.2.1
  let rates := res.2.2
  let causes := List.replicate raw_spi.length "Potential risk due to road conditions"
  let is_wet := weather.is_rain.getD false || decide (0.1 < weather.precipitation)
  let integrated_scores := (List.range coords.length).map (fun idx =>
    let cause_prob := raw_spi.getD idx 0.5
    let segment_rate := rates.getD idx 0.0
    calculate_integrated_risk_score cause_prob segment_rate vehicle_type is_wet)
  (integrated_scores.map (fun score => score / 100), causes, rates)

/-! ## Seeded grid generator (`app/services/risk_segments.py`) -/

/-- `seeded_random(seed)`: `x = math.sin(seed) * 10000; return x - math.floor(x)`. -/
def seeded_random (seed : ℤ) : ℝ :=
  Int.fract (Real.sin (seed : ℝ) * 10000)

/-- `hash_coords(lat, lon) = int((lat * 1000 + lon * 1000) * 12345)`. -/
def hash_coords (lat lon : ℝ) : ℤ :=
  pyInt ((lat * 1000 + lon * 1000) * 12345)

/-- `generate_segment_id(lat, lon)` formats `round(lat, 3)` and
`round(lon, 3)` into the string `seg_<lat>_<lon>`; decimal string
formatting of a real is kept abstract, the id is modelled by the rounded
pair it is built from. -/
def generate_segment_id (lat lon : ℝ) : ℝ × ℝ :=
  (pyRound3 lat, pyRound3 lon)

/-- The `causes["high"]` list of `calculate_risk_for_location`. -/
def high_causes : List String :=
  ["Dangerous sharp curve with very poor visibility",
   "Steep descent with hairpin turn",
   "Narrow road with blind spots",
   "Wet road with poor drainage",
   "Heavy traffic during rush hour"]

/-- The `causes["medium"]` list. -/
def medium_causes : List String :=
  ["Moderate traffic zone",
   "Uneven road surface",
   "Tight turn",
   "Medium traffic",
   "Narrow lane with limited visibility"]

/-- The `causes["low"]` list. -/
def low_causes : List String :=
  ["Well-maintained road section",
   "Safe residential area",
   "Wide road",
   "Good visibility"]

/-- The `vehicle_context` dict (no `"VAN"` entry — `.get` default `""`). -/
def vehicle_context : List (String × String) :=
  [("MOTORCYCLE", " - high risk for motorcycles"),
   ("THREE_WHEELER", " - risky for three wheelers"),
   ("BUS", " - challenging for buses"),
   ("LORRY", " - difficult for lorries"),
   ("CAR", "")]

/-- `calculate_risk_for_location(lat, lon, vehicle_type, hour)`: seeded base
risk, vehicle and time multipliers, clip to [0, 100], seeded cause pick and
vehicle-context suffix for risk ≥ 60; returns `(int(final_risk), top_cause)`. -/
def calculate_risk_for_location (lat lon : ℝ) (vehicle_type : String) (hour : ℤ) :
    ℤ × String :=
  let seed := hash_coords lat lon
  let base_risk := seeded_random seed * 100
  let vehicle_risk := base_risk * pyGet vehicle_multipliers vehicle_type 1.0
  let time_multiplier : ℝ :=
    if hour ∈ ([7, 8, 9, 17, 18, 19] : List ℤ) then 1.2
    else if hour ∈ ([0, 1, 2, 3, 4, 5] : List ℤ) then 1.1
    else 1.0
  let final_risk := min 100 (max 0 (vehicle_risk * time_multiplier))
  let cause_list :=
    if 70 ≤ final_risk then high_causes
    else if 40 ≤ final_risk then medium_causes
    else low_causes
  let top_cause :=
    cause_list.getD (pyInt (seeded_random (seed + 1) * cause_list.length)).toNat ""
  let top_cause :=
    if 60 ≤ final_risk then top_cause ++ pyGet vehicle_context vehicle_type ""
    else top_cause
  (pyInt final_risk, top_cause)

/-- The optional manual weather parameters of `/segments/today` handed to
`generate_risk_segments` as `weather_input` (a `None` value models an
absent/`None` query parameter). -/
structure WeatherInput where
  temperature : Option ℝ
  humidity : Option ℝ
  precipitation : Option ℝ
  wind_speed : Option ℝ
  is_wet : Option ℤ

/-- One generated `SegmentFeature` (the fields its `properties` and
polygon geometry carry). -/
structure GridSegment where
  segment_id : ℝ × ℝ
  risk_0_100 : ℤ
  rate_pred : ℝ
  hour : ℤ
  vehicle : String
  top_cause : String
  polygon : List (ℝ × ℝ)

/-- `generate_risk_segments(bbox, hour, vehicle_type, weather_input)` in
fallback mode. `now_hour` makes the one ambient input — `datetime.now().hour`,
read only when `hour is None` — explicit. Cells are produced row-major
(`for i ... for j ...`); a cell whose centre fails the Ginigathena filter
is skipped (`continue`). -/
def generate_risk_segments (bbox : Option (ℝ × ℝ × ℝ × ℝ)) (hour : Option ℤ)
    (vehicle_type : Option String) (weather_input : Option WeatherInput)
    (now_hour : ℤ) : List GridSegment :=
  let bbox := bbox.getD (80.43, 6.94, 80.55, 7.03)
  let hour := hour.getD now_hour
  let vehicle_type := vehicle_type.getD "CAR"
  let (min_lon, min_lat, max_lon, max_lat) := bbox
  let lat_range := max_lat - min_lat
  let lon_range := max_lon - min_lon
  let cell_size : ℝ := 0.004
  let num_cells_lat := min 12 (max 3 (pyInt (lat_range / cell_size)))
  let num_cells_lon := min 12 (max 3 (pyInt (lon_range / cell_size)))
  let step_lat := lat_range / (num_cells_lat : ℝ)
  let step_lon := lon_range / (num_cells_lon : ℝ)
  let weather_defaults : CellWeather :=
    match weather_input with
    | none =>
      { temperature := 30.0, humidity := 75.0, precipitation := 0.0,
        wind_speed := 10.0, curvature := .scalar 0.0, is_rain := none, is_wet := none }
    | some wi =>
      let temperature := wi.temperature.getD 30.0
      let humidity := wi.humidity.getD 75.0
      let precipitation := wi.precipitation.getD 0.0
      let wind_speed := wi.wind_speed.getD 10.0
      let is_wet := wi.is_wet
      let is_rain := decide (0.1 < precipitation) || (is_wet == some 1)
      { temperature, humidity, precipitation, wind_speed,
        curvature := .scalar 0.0, is_rain := some is_rain, is_wet }
  ((List.range num_cells_lat.toNat).map (fun i =>
    (List.range num_cells_lon.toNat).filterMap (fun j =>
      let cell_min_lat := pyRound4 (min_lat + (i : ℝ) * step_lat)
      let cell_max_lat := pyRound4 (min_lat + ((i : ℝ) + 1) * step_lat)
      let cell_min_lon := pyRound4 (min_lon + (j : ℝ) * step_lon)
      let cell_max_lon := pyRound4 (min_lon + ((j : ℝ) + 1) * step_lon)
      let center_lat := (cell_min_lat + cell_max_lat) / 2
      let center_lon := (cell_min_lon + cell_max_lon) / 2
      if (7 ≤ center_lat ∧ center_lat ≤ 7.5) ∧ (80.4 ≤ center_lon ∧ center_lon ≤ 80.9) then
        let cell_coords := [(center_lat, center_lon)]
        let seed_base := hash_coords center_lat center_lon
        let cell_curvature := seeded_random seed_base * 0.25
        let cell_weather := { weather_defaults with curvature := .perPoint [cell_curvature] }
        let res := predict_with_cause_fallback cell_coords cell_weather vehicle_type (some hour)
        let cell_risk := pyInt (res.1.getD 0 0 * 100)
        let cell_cause := res.2.1.getD 0 ""
        let cell_rate := res.2.2.getD 0 0
        some { segment_id := generate_segment_id center_lat center_lon,
               risk_0_100 := cell_risk, rate_pred := cell_rate, hour := hour,
               vehicle := vehicle_type, top_cause := cell_cause,
               polygon := [(cell_min_lon, cell_min_lat), (cell_max_lon, cell_min_lat),
                           (cell_max_lon, cell_max_lat), (cell_min_lon, cell_max_lat),
                           (cell_min_lon, cell_min_lat)] }
      else none))).flatten

/-- The turning-angle formula exactly as the specification words it:
`arccos(clamp(dot(v1,v2)/(|v1||v2|+ε), −1, 1))` with ε = 1e-9, `v1`, `v2`
the vectors from the point to its neighbors (no absolute value — spec-side
definition, for comparison with the source-side `turn_angle`). -/
def specTurnAngle (a b c : ℝ × ℝ) : ℝ :=
  let v1 : ℝ × ℝ := (a.1 - b.1, a.2 - b.2)
  let v2 : ℝ × ℝ := (c.1 - b.1, c.2 - b.2)
  let num := v1.1 * v2.1 + v1.2 * v2.2
  let den := Real.sqrt (v1.1 ^ 2 + v1.2 ^ 2) * Real.sqrt (v2.1 ^ 2 + v2.2 ^ 2) + 1e-9
  Real.arccos (max (-1) (min 1 (num / den)))

end

/-! ## Helper lemmas -/

/-- `pyGet` over the vehicle-multiplier dict agrees with the
specification's table-with-default description. -/
theorem pyGet_vehicle_multipliers (v : String) :
    pyGet vehicle_multipliers v 1.0 = specVehicleMultiplier v := by
  by_cases h1 : v = "MOTORCYCLE"
  · subst h1; simp [pyGet, vehicle_multipliers, specVehicleMultiplier]
  by_cases h2 : v = "THREE_WHEELER"
  · subst h2; simp [pyGet, vehicle_multipliers, specVehicleMultiplier]
  by_cases h3 : v = "CAR"
  · subst h3; simp [pyGet, vehicle_multipliers, specVehicleMultiplier]
  by_cases h4 : v = "BUS"
  · subst h4; simp [pyGet, vehicle_multipliers, specVehicleMultiplier]
  by_cases h5 : v = "LORRY"
  · subst h5; simp [pyGet, vehicle_multipliers, specVehicleMultiplier]
  by_cases h6 : v = "VAN"
  · subst h6; simp [pyGet, vehicle_multipliers, specVehicleMultiplier]
  · simp [pyGet, vehicle_multipliers, specVehicleMultiplier, h1, h2, h3, h4, h5, h6,
      Ne.symm h1, Ne.symm h2, Ne.symm h3, Ne.symm h4, Ne.symm h5, Ne.symm h6]

/-- Every element of a list satisfying `P`, and the default satisfying `P`,
give `P` at every `getD` read. -/
theorem getD_of_forall_mem {α : Type} (P : α → Prop) (l : List α) (d : α)
    (hd : P d) (hl : ∀ x ∈ l, P x) (i : ℕ) : P (l.getD i d) := by
  by_cases hi : i < l.length
  · rw [List.getD_eq_getElem l d hi]
    exact hl _ (List.getElem_mem hi)
  · rw [List.getD_eq_default l d (by omega)]
    exact hd

/-- A list containing an element that fails the filter predicate filters to
a strictly shorter list. -/
theorem length_filter_lt_of_mem_not {α : Type} (p : α → Bool) (l : List α) (c : α)
    (hc : c ∈ l) (hf : p c = false) : (l.filter p).length < l.length := by
  induction l with
  | nil => cases hc
  | cons a l ih =>
    rcases List.mem_cons.mp hc with rfl | hmem
    · rw [List.filter_cons, if_neg (by simp [hf])]
      exact Nat.lt_succ_of_le (List.length_filter_le _ _)
    · by_cases hpa : p a = true
      · rw [List.filter_cons, if_pos (by simp [hpa])]
        exact Nat.succ_lt_succ (ih hmem)
      · rw [List.filter_cons, if_neg (by simp [hpa])]
        exact Nat.lt_succ_of_lt (ih hmem)

/-! ## Claims -/

/-- **C1.** For every cause probability `p`, segment rate `r`, vehicle type
`v` and wet flag `w`, `calculate_integrated_risk_score` returns
`clip(100·(0.6·sigmoid(5·(p−0.5)) + 0.4·min(1, r/0.05))·vehicleMultiplier(v)·weatherMultiplier(w), 0, 100)`
with the spec's multiplier tables, and in particular the inputs
`(0.5, 0.0, CAR, false)` yield exactly 30.0. -/
theorem C1_integrated_risk_score (p r : ℝ) (v : String) (w : Bool) :
    calculate_integrated_risk_score p r v w = specIntegratedScore p r v w ∧
    calculate_integrated_risk_score 0.5 0 "CAR" false = 30 := by
  constructor
  · unfold calculate_integrated_risk_score specIntegratedScore
    rw [pyGet_vehicle_multipliers]
    norm_num
  · unfold calculate_integrated_risk_score sigmoid
    rw [pyGet_vehicle_multipliers]
    have hcar : specVehicleMultiplier "CAR" = 1.0 := by
      simp [specVehicleMultiplier]
    rw [hcar]
    norm_num [Real.exp_zero, min_def, max_def]

/-- **C3 counterexample.** With the XGBoost risk-model handle in FALLBACK
state (`_XGB_MODEL == "dummy"`), a later loader call in an environment
where a model file has become available re-attempts the load and
transitions the handle to LOADED — the guard
`_XGB_MODEL is not None and _XGB_MODEL != "dummy"` does not short-circuit
on the fallback sentinel, refuting "never transitions out of FALLBACK". -/
theorem C3_fallback_not_absorbing :
    load_xgboost_model_step LoadEnv.fileLoads ModelSlot.fallback = ModelSlot.loaded ∧
    load_xgboost_model_step LoadEnv.fileLoads ModelSlot.fallback ≠ ModelSlot.fallback := by
  decide

/-- **C3 (amended).** For each of the three model roles, LOADED is
absorbing for the process lifetime; FALLBACK, however, is retried: a loader
call in FALLBACK (or UNLOADED) state re-attempts deserialization, leaving
the role in FALLBACK exactly while the load keeps failing (file missing or
corrupt) and transitioning it to LOADED as soon as a file becomes available
and deserializes. -/
theorem C3_loader_state_transitions (env : LoadEnv) :
    (load_xgboost_model_step env ModelSlot.loaded = ModelSlot.loaded ∧
     load_cause_classifier_step env ModelSlot.loaded = ModelSlot.loaded ∧
     load_segment_rate_model_step env ModelSlot.loaded = ModelSlot.loaded) ∧
    (load_xgboost_model_step env ModelSlot.fallback =
      (if env = LoadEnv.fileLoads then ModelSlot.loaded else ModelSlot.fallback) ∧
     load_cause_classifier_step env ModelSlot.fallback =
      (if env = LoadEnv.fileLoads then ModelSlot.loaded else ModelSlot.fallback) ∧
     load_segment_rate_model_step env ModelSlot.fallback =
      (if env = LoadEnv.fileLoads then ModelSlot.loaded else ModelSlot.fallback)) ∧
    (load_xgboost_model_step env ModelSlot.unloaded =
      (if env = LoadEnv.fileLoads then ModelSlot.loaded else ModelSlot.fallback) ∧
     load_cause_classifier_step env ModelSlot.unloaded =
      (if env = LoadEnv.fileLoads then ModelSlot.loaded else ModelSlot.fallback) ∧
     load_segment_rate_model_step env ModelSlot.unloaded =
      (if env = LoadEnv.fileLoads then ModelSlot.loaded else ModelSlot.fallback)) := by
  cases env <;> decide

/-- **C5.** When the risk model is LOADED and the vehicle threshold `t`
lies in (0,1), the pre-curvature-amplification normalization of a raw
prediction `p` is `0.5 + 0.5·(p−t)/(1−t)` for `p ≥ t` and `0.5·(p/t)` for
`p < t`; in particular `p = t` maps to exactly 0.5. -/
theorem C5_threshold_normalization (p t : ℝ) (_ht0 : 0 < t) (_ht1 : t < 1) :
    (t ≤ p → base_risk p t = 0.5 + 0.5 * ((p - t) / (1 - t))) ∧
    (p < t → base_risk p t = 0.5 * (p / t)) ∧
    base_risk t t = 0.5 := by
  refine ⟨fun h => ?_, fun h => ?_, ?_⟩
  · unfold base_risk
    rw [if_pos h]
    norm_num
  · unfold base_risk
    rw [if_neg (not_le.mpr h)]
  · unfold base_risk
    rw [if_pos le_rfl]
    norm_num

/-- **C5 witness.** At `p = t = 0.5` the normalized pre-amplification risk
is exactly 0.5. -/
theorem C5_threshold_normalization_witness : base_risk 0.5 0.5 = 0.5 :=
  (C5_threshold_normalization 0.7 0.5 (by norm_num) (by norm_num)).2.2

/-- **C8 counterexample.** The spec's example route
`[[6.93,80.45],[6.94,80.46]]` produces no overall score at all: both
latitudes lie south of the service rectangle (min_lat = 7.0), the geofence
filter removes every point, and `/score` answers with the 400 rejection —
so the claimed fallback-formula evaluation never happens. -/
theorem C8_example_route_yields_no_score :
    filter_coordinates_in_ginigathena [(6.93, 80.45), (6.94, 80.46)] = [] ∧
    score_validate [(6.93, 80.45), (6.94, 80.46)] =
      .error (400, "Route is outside Ginigathena service area. Risk analysis is only available for routes within Ginigathena.") := by
  constructor <;>
    norm_num [score_validate, filter_coordinates_in_ginigathena, is_within_ginigathena,
      List.filter]

/-- **C8 (amended).** Scoring the route `[[6.93,80.45],[6.94,80.46]]` never
reaches the scoring core: the `/score` validation rejects it with the
client-fault geofence error for every possible filtered coordinate list,
since the route lies entirely outside the service rectangle. -/
theorem C8_example_route_rejected :
    ∀ filtered, score_validate [(6.93, 80.45), (6.94, 80.46)] ≠ .ok filtered := by
  intro filtered h
  have hval : score_validate [(6.93, 80.45), (6.94, 80.46)] =
      .error (400, "Route is outside Ginigathena service area. Risk analysis is only available for routes within Ginigathena.") := by
    norm_num [score_validate, filter_coordinates_in_ginigathena, is_within_ginigathena,
      List.filter]
  rw [hval] at h
  exact Except.noConfusion h

/-- **C8 witness.** In particular the route is not validated to the empty
filtered list. -/
theorem C8_example_route_rejected_witness :
    score_validate [(6.93, 80.45), (6.94, 80.46)] ≠ .ok [] :=
  C8_example_route_rejected []

/-- **C2 counterexample.** In fallback mode with vehicle factor 1.0,
per-point curvature [1.5], wetness 0 and hour 8 (rush hour), the code
returns risk 1.0 (the clip is applied to the already-multiplied value
`1.2 · 1.2 = 1.44`), while the claimed formula — clip first, then the
rush-hour multiplier — gives 1.2. -/
theorem C2_clip_order_counterexample :
    (predict_segment_scores_fallback ⟨some (.perPoint [1.5]), none, none, some 8⟩ 1).1 = [1] ∧
    specFallbackRisk 1.0 1.5 0.0 (some 8) = 1.2 ∧
    (predict_segment_scores_fallback ⟨some (.perPoint [1.5]), none, none, some 8⟩ 1).1 ≠
      [specFallbackRisk 1.0 1.5 0.0 (some 8)] := by
  refine ⟨?_, ?_, ?_⟩ <;>
    norm_num [predict_segment_scores_fallback, specFallbackRisk, timeFactor,
      min_def, max_def]

/-- **C2 (amended).** In FALLBACK state the risk prediction for every route
point is `clip((0.15·vehicleFactor + 0.7·curvature + 0.15·wetnessProb)·tf, 0, 1)`
with the rush-hour multiplier `tf` (1.2 for supplied hours in
{7,8,9,17,18,19}, else 1.0) applied *before* the clip — consequently every
returned value lies in [0, 1]. Stated for both shapes of the `"curvature"`
feature (per-point list and broadcast scalar). -/
theorem C2_fallback_risk_formula (vf wet b : ℝ) (xs : List ℝ) (hour : Option ℤ) (n : ℕ) :
    (predict_segment_scores_fallback ⟨some (.perPoint xs), some wet, some vf, hour⟩ n).1 =
      xs.map (fun c => specFallbackRiskAmended vf c wet hour) ∧
    (predict_segment_scores_fallback ⟨some (.scalar b), some wet, some vf, hour⟩ n).1 =
      List.replicate n (specFallbackRiskAmended vf b wet hour) ∧
    (∀ i : ℕ,
      0 ≤ (predict_segment_scores_fallback ⟨some (.perPoint xs), some wet, some vf, hour⟩ n).1.getD i 0 ∧
      (predict_segment_scores_fallback ⟨some (.perPoint xs), some wet, some vf, hour⟩ n).1.getD i 0 ≤ 1) := by
  refine ⟨rfl, rfl, fun i => ?_⟩
  apply getD_of_forall_mem (fun x => 0 ≤ x ∧ x ≤ 1)
  · exact ⟨le_rfl, by norm_num⟩
  · intro x hx
    simp only [predict_segment_scores_fallback, Option.getD_some] at hx
    obtain ⟨c, -, rfl⟩ := List.mem_map.mp hx
    exact ⟨le_min (by norm_num) (le_max_left 0 _), min_le_left 1 _⟩

/-- **C7.** `filter_coordinates_in_ginigathena` returns exactly the
in-order subsequence of points inside the service rectangle (lat ∈
[7.0, 7.5], lon ∈ [80.4, 80.9]); a route containing any out-of-bounds
point filters to a strictly shorter list; and the `/score` endpoint
rejects with a client-fault 400 error (not an internal 500) every route
whose filtered list has fewer than 2 points. -/
theorem C7_geofence_filter_and_rejection (coords : List (ℚ × ℚ)) :
    (filter_coordinates_in_ginigathena coords).Sublist coords ∧
    (∀ c, c ∈ filter_coordinates_in_ginigathena coords ↔
        (c ∈ coords ∧ is_within_ginigathena c.1 c.2 = true)) ∧
    ((∃ c ∈ coords, is_within_ginigathena c.1 c.2 = false) →
        (filter_coordinates_in_ginigathena coords).length < coords.length) ∧
    (2 ≤ coords.length → (filter_coordinates_in_ginigathena coords).length < 2 →
        score_validate coords = .error (400,
          "Route is outside Ginigathena service area. Risk analysis is only available for routes within Ginigathena.")) := by
  refine ⟨List.filter_sublist _, fun c => ?_, fun hex => ?_, fun h2 hlt => ?_⟩
  · simp [filter_coordinates_in_ginigathena, List.mem_filter]
  · obtain ⟨c, hc, hf⟩ := hex
    exact length_filter_lt_of_mem_not _ coords c hc hf
  · simp only [score_validate]
    rw [if_neg (by omega : ¬ coords.length < 2), if_pos hlt]

/-- **C7 witness.** Concrete instances: a straddling route
`[(7.1,80.5),(6.9,80.5)]` filters to a strictly shorter in-bounds list, and
the all-outside route `[(6.9,80.5),(6.8,80.5)]` is rejected with the 400
geofence error. -/
theorem C7_geofence_witness :
    (filter_coordinates_in_ginigathena [(7.1, 80.5), (6.9, 80.5)]).Sublist
      [(7.1, 80.5), (6.9, 80.5)] ∧
    ((7.1, 80.5) ∈ filter_coordinates_in_ginigathena [(7.1, 80.5), (6.9, 80.5)] ↔
      ((7.1, 80.5) ∈ [((7.1 : ℚ), (80.5 : ℚ)), (6.9, 80.5)] ∧
        is_within_ginigathena 7.1 80.5 = true)) ∧
    (filter_coordinates_in_ginigathena [(7.1, 80.5), (6.9, 80.5)]).length < 2 ∧
    score_validate [(6.9, 80.5), (6.8, 80.5)] = .error (400,
      "Route is outside Ginigathena service area. Risk analysis is only available for routes within Ginigathena.") :=
  ⟨(C7_geofence_filter_and_rejection [(7.1, 80.5), (6.9, 80.5)]).1,
   (C7_geofence_filter_and_rejection [(7.1, 80.5), (6.9, 80.5)]).2.1 (7.1, 80.5),
   (C7_geofence_filter_and_rejection [(7.1, 80.5), (6.9, 80.5)]).2.2.1
     ⟨(6.9, 80.5), by norm_num, by norm_num [is_within_ginigathena]⟩,
   (C7_geofence_filter_and_rejection [(6.9, 80.5), (6.8, 80.5)]).2.2.2 (by norm_num)
     (by norm_num [filter_coordinates_in_ginigathena, is_within_ginigathena, List.filter])⟩

/-- **C9.** `hash_coords(lat, lon) = int((lat·1000 + lon·1000)·12345)`
depends only on the sum `lat + lon`; consequently two locations with equal
coordinate sums get the identical seed and hence the identical risk score
and cause string from `calculate_risk_for_location` for the same vehicle
and hour. -/
theorem C9_hash_depends_on_lat_lon_sum (lat1 lon1 lat2 lon2 : ℝ) (v : String) (h : ℤ)
    (hsum : lat1 + lon1 = lat2 + lon2) :
    hash_coords lat1 lon1 = hash_coords lat2 lon2 ∧
    calculate_risk_for_location lat1 lon1 v h = calculate_risk_for_location lat2 lon2 v h := by
  have key : hash_coords lat1 lon1 = hash_coords lat2 lon2 := by
    unfold hash_coords
    have heq : lat1 * 1000 + lon1 * 1000 = lat2 * 1000 + lon2 * 1000 := by linarith
    rw [heq]
  refine ⟨key, ?_⟩
  unfold calculate_risk_for_location
  rw [key]

/-- **C9 witness.** The locations (7.1, 80.5) and (7.2, 80.4) have equal
coordinate sums, hence identical seed and identical risk/cause. -/
theorem C9_hash_witness :
    hash_coords 7.1 80.5 = hash_coords 7.2 80.4 ∧
    calculate_risk_for_location 7.1 80.5 "CAR" 8 =
      calculate_risk_for_location 7.2 80.4 "CAR" 8 :=
  C9_hash_depends_on_lat_lon_sum 7.1 80.5 7.2 80.4 "CAR" 8 (by norm_num)

/-- **C10.** For a `None` or empty predictions list,
`calculate_prediction_confidence` returns exactly
`{"confidence": 0.0, "certainty": "low"}` — certainty the *string* `"low"`,
with the `distance_from_threshold`, `consistency`, `avg_prediction` and
`threshold` keys absent — whereas every non-empty input produces one of the
numeric certainty levels 0.9/0.5/0.2 and carries all four keys. -/
theorem C10_confidence_empty_and_nonempty (vehicle_type : String) :
    calculate_prediction_confidence none vehicle_type =
      ⟨0.0, .str "low", none, none, none, none⟩ ∧
    calculate_prediction_confidence (some []) vehicle_type =
      ⟨0.0, .str "low", none, none, none, none⟩ ∧
    (∀ ps : List ℝ, ps ≠ [] →
      (((calculate_prediction_confidence (some ps) vehicle_type).certainty = .num 0.9 ∨
        (calculate_prediction_confidence (some ps) vehicle_type).certainty = .num 0.5 ∨
        (calculate_prediction_confidence (some ps) vehicle_type).certainty = .num 0.2) ∧
       (calculate_prediction_confidence (some ps) vehicle_type).distance_from_threshold.isSome = true ∧
       (calculate_prediction_confidence (some ps) vehicle_type).consistency.isSome = true ∧
       (calculate_prediction_confidence (some ps) vehicle_type).avg_prediction.isSome = true ∧
       (calculate_prediction_confidence (some ps) vehicle_type).threshold.isSome = true)) := by
  refine ⟨rfl, rfl, fun ps hps => ?_⟩
  have hlen : ¬ ps.length = 0 := by
    simpa [List.length_eq_zero] using hps
  simp only [calculate_prediction_confidence, hlen, if_false]
  refine ⟨?_, rfl, rfl, rfl, rfl⟩
  split_ifs <;> simp

/-- **C10 witness.** At `None` input the exact low-string result; at the
non-empty input `[0.6]` one of the numeric certainty levels. -/
theorem C10_confidence_witness :
    calculate_prediction_confidence none "CAR" =
      ⟨0.0, .str "low", none, none, none, none⟩ ∧
    ((calculate_prediction_confidence (some [0.6]) "CAR").certainty = .num 0.9 ∨
     (calculate_prediction_confidence (some [0.6]) "CAR").certainty = .num 0.5 ∨
     (calculate_prediction_confidence (some [0.6]) "CAR").certainty = .num 0.2) :=
  ⟨(C10_confidence_empty_and_nonempty "CAR").1,
   ((C10_confidence_empty_and_nonempty "CAR").2.2 [0.6] (by simp)).1⟩

/-- **C4.** With the model handles in FALLBACK state, the grid generator is
a pure function of its declared inputs: two calls with identical bounding
box, supplied hour, vehicle type and weather produce identical segment
lists — same cells in the same order with identical `risk_0_100` and
top-cause values — independently of the ambient wall clock (`now_hour`,
the only process state the fallback path can read). The per-cell curvature
comes from the pure generator `seeded_random (hash_coords lat lon)`, so no
call-to-call randomness enters. -/
theorem C4_grid_determinism (bbox : Option (ℝ × ℝ × ℝ × ℝ)) (h : ℤ)
    (vehicle : Option String) (weather : Option WeatherInput) (t1 t2 : ℤ) :
    generate_risk_segments bbox (some h) vehicle weather t1 =
      generate_risk_segments bbox (some h) vehicle weather t2 := rfl

/-- **C6.** For every route with at least 3 points, `per_point_curvature`
returns a list of the route's length whose first and last entries are
exactly 0, every entry lies in [0, π], and each interior entry is
`arccos(clamp(dot(v1,v2)/(|v1||v2|+1e-9), −1, 1))` for the vectors `v1`,
`v2` from the point to its neighbors. -/
theorem C6_per_point_curvature (coords : List (ℝ × ℝ)) (h3 : 3 ≤ coords.length) :
    (per_point_curvature coords).length = coords.length ∧
    (per_point_curvature coords).head? = some 0 ∧
    (per_point_curvature coords).getLast? = some 0 ∧
    (∀ i : ℕ, 0 ≤ (per_point_curvature coords).getD i 0 ∧
        (per_point_curvature coords).getD i 0 ≤ Real.pi) ∧
    (∀ i : ℕ, 1 ≤ i → i + 1 < coords.length →
        (per_point_curvature coords).getD i 0 =
          specTurnAngle (coords.getD (i - 1) (0, 0)) (coords.getD i (0, 0))
            (coords.getD (i + 1) (0, 0))) := by
  have hn : ¬ coords.length < 3 := by omega
  have hppc : per_point_curvature coords =
      0 :: ((List.range (coords.length - 2)).map (fun k =>
        turn_angle (coords.getD k (0, 0)) (coords.getD (k + 1) (0, 0))
          (coords.getD (k + 2) (0, 0)))) ++ [0] := by
    unfold per_point_curvature
    rw [if_neg hn]
  have hta : ∀ a b c : ℝ × ℝ, turn_angle a b c = specTurnAngle a b c := by
    intro a b c
    simp only [turn_angle, specTurnAngle]
    exact abs_of_nonneg (Real.arccos_nonneg _)
  refine ⟨?_, ?_, ?_, ?_, ?_⟩
  · rw [hppc]
    simp only [List.length_cons, List.length_append, List.length_map, List.length_range,
      List.length_nil]
    omega
  · rw [hppc]
    rfl
  · rw [hppc]
    exact List.getLast?_concat _
  · intro i
    rw [hppc]
    apply getD_of_forall_mem (fun x => 0 ≤ x ∧ x ≤ Real.pi)
    · exact ⟨le_rfl, Real.pi_nonneg⟩
    · intro x hx
      simp only [List.mem_cons, List.mem_append, List.mem_map, List.mem_singleton,
        List.mem_range] at hx
      rcases hx with (rfl | ⟨k, -, rfl⟩) | rfl | hemp
      · exact ⟨le_rfl, Real.pi_nonneg⟩
      · rw [hta]
        exact ⟨Real.arccos_nonneg _, Real.arccos_le_pi _⟩
      · exact ⟨le_rfl, Real.pi_nonneg⟩
      · exact absurd hemp (List.not_mem_nil x)
  · intro i h1 hi
    rw [hppc]
    obtain ⟨j, rfl⟩ : ∃ j, i = j + 1 := ⟨i - 1, by omega⟩
    rw [List.getD_append _ _ _ _ (by
      simp only [List.length_cons, List.length_map, List.length_range]
      omega)]
    rw [List.getD_cons_succ]
    rw [List.getD_eq_getElem _ _ (by
      simp only [List.length_map, List.length_range]
      omega)]
    simp only [List.getElem_map, List.getElem_range]
    rw [hta]
    norm_num

/-- **C6 witness.** The concrete 3-point route `[(0,0),(1,0),(1,1)]`: list
of length 3, endpoints 0, interior entry equal to the clamped-arccos
formula and inside [0, π]. -/
theorem C6_per_point_curvature_witness :
    (per_point_curvature [(0, 0), (1, 0), (1, 1)]).length = 3 ∧
    (per_point_curvature [(0, 0), (1, 0), (1, 1)]).head? = some 0 ∧
    (per_point_curvature [(0, 0), (1, 0), (1, 1)]).getLast? = some 0 ∧
    (0 ≤ (per_point_curvature [(0, 0), (1, 0), (1, 1)]).getD 1 0 ∧
      (per_point_curvature [(0, 0), (1, 0), (1, 1)]).getD 1 0 ≤ Real.pi) ∧
    (per_point_curvature [(0, 0), (1, 0), (1, 1)]).getD 1 0 =
      specTurnAngle (0, 0) (1, 0) (1, 1) := by
  have h := C6_per_point_curvature [(0, 0), (1, 0), (1, 1)] (by simp)
  refine ⟨h.1, h.2.1, h.2.2.1, h.2.2.2.1 1, ?_⟩
  have hi := h.2.2.2.2 1 le_rfl (by norm_num)
  simpa [List.getD] using hi

end RiskRouteVision
